import Mathlib

set_option maxHeartbeats 1000000

namespace Mediarr

/-! Shallow embedding of the mediarr metadata enrichment pipeline
(custom_components/mediarr): the TMDB base sensor
(common/tmdb_sensor.py), the Seer discovery sensor
(discovery/seer_discovery.py), the TMDB discovery sensor
(discovery/tmdb.py) and the Plex sensor (server/plex.py).
Machine integers are modelled as Int/Nat (Python integers are unbounded),
Python None/missing-key values as Option, Python string truthiness as
an explicit emptiness test. -/

/-! Python string primitives used by the pipeline. -/

/-- Whitespace for str.strip and the regex class \s, restricted to the
ASCII whitespace characters (the date and title strings consumed by the
pipeline contain no exotic Unicode whitespace). -/
def pySpace (c : Char) : Bool :=
  c = ' ' || c = '\t' || c = '\n' || c = '\x0d' || c = '\x0b' || c = '\x0c'

/-- Python str.strip() on a character list: whitespace removed from both ends. -/
def pyStripList (cs : List Char) : List Char :=
  ((cs.dropWhile pySpace).reverse.dropWhile pySpace).reverse

/-- Python str.strip(). -/
def pyStrip (s : String) : String :=
  String.mk (pyStripList s.data)

/-- Python truthiness of an optional string: None and the empty string are
falsy. -/
def pyTruthy : Option String → Bool
  | none => false
  | some s => s ≠ ""

/-- Python str(x) for an optional integer: str(None) is the string None. -/
def pyStrOfOptInt : Option Int → String
  | none => "None"
  | some n => toString n

/-- Numeric value of a run of decimal digits. -/
def digitsVal (ds : List Char) : Nat :=
  ds.foldl (fun n c => 10 * n + (c.toNat - 48)) 0

/-- Python int(s) restricted to the shapes that can reach it here: optional
surrounding whitespace, an optional single sign, then decimal digits.
Underscore digit separators are not modelled (a date field never carries
them). Returns none where int() raises ValueError. -/
def pyInt? (s : String) : Option Int :=
  match pyStripList s.data with
  | [] => none
  | '+' :: ds => if !ds.isEmpty && ds.all (·.isDigit) then some (Int.ofNat (digitsVal ds)) else none
  | '-' :: ds => if !ds.isEmpty && ds.all (·.isDigit) then some (-(Int.ofNat (digitsVal ds))) else none
  | ds => if ds.all (·.isDigit) then some (Int.ofNat (digitsVal ds)) else none

/-- Python str.lower() restricted to ASCII case folding (every filter
keyword is ASCII). -/
def strLower (s : String) : String :=
  String.mk (s.data.map Char.toLower)

/-- Whether the needle list is an initial segment of the haystack list. -/
def listLeads : List Char → List Char → Bool
  | [], _ => true
  | _ :: _, [] => false
  | a :: arest, b :: brest => a == b && listLeads arest brest

/-- Whether the needle occurs contiguously inside the haystack: the Python
substring test, needle in haystack. -/
def listHas (needle : List Char) : List Char → Bool
  | [] => needle.isEmpty
  | b :: brest => listLeads needle (b :: brest) || listHas needle brest

/-- Python substring containment for strings. -/
def strHas (hay needle : String) : Bool :=
  listHas needle.data hay.data

/-- Characters of a string before the first dash: Python s.split(sep)[0]
with sep the dash. -/
def dashLead (s : String) : String :=
  String.mk (s.data.takeWhile (fun c => c ≠ '-'))

/-! Media kinds and the filter configuration. -/

/-- The media_type strings movie and tv that the pipeline passes around. -/
inductive MediaType where
  | movie
  | tv
deriving DecidableEq

/-- String form of a media type as used in cache keys and endpoints. -/
def mtStr : MediaType → String
  | .movie => "movie"
  | .tv => "tv"

/-- The filter dictionary. Construction fills every key with a default and
filters.update replaces whole values per key, so each key is always
present: the model carries the fields directly. The hide_existing flag of
the TMDB discovery sensor is not modelled (its rule reads live sibling
sensor state, outside this embedding). -/
structure Filters where
  language : String
  min_year : Int
  exclude_talk_shows : Bool
  exclude_genres : List Int
  exclude_non_english : Bool
deriving DecidableEq

/-- Default filters of the Seer discovery sensor constructor (also the
TMDB base sensor defaults with language en). -/
def seerDefaultFilters : Filters :=
  { language := "en"
  , min_year := 0
  , exclude_talk_shows := true
  , exclude_genres := [10763, 10764, 10767]
  , exclude_non_english := true }

/-- A raw upstream item as the filter code reads it: each read uses
item.get, so every field is optional. An entirely empty item dict (falsy
in Python) is not modelled; the callers always pass result objects with
fields. -/
structure SeerItem where
  id : Option Int
  title : Option String
  name : Option String
  first_air_date : Option String
  release_date : Option String
  original_language : Option String
  genre_ids : List Int
deriving DecidableEq

/-! The year-floor filter rule, in its two variants. -/

/-- Year parsed from the date field matching the media kind:
first_air_date for series, release_date for movies; the field must be
present and truthy, and Python int() must accept the text before the
first dash. This is the common parse step of both variants. -/
def parsedYearOf (item : SeerItem) (mt : MediaType) : Option Int :=
  match mt with
  | .tv =>
    match item.first_air_date with
    | some d => if d ≠ "" then pyInt? (dashLead d) else none
    | none => none
  | .movie =>
    match item.release_date with
    | some d => if d ≠ "" then pyInt? (dashLead d) else none
    | none => none

/-- Year-floor rule of TMDBMediaSensor.should_include_item
(common/tmdb_sensor.py lines 77-91): reject when the parse succeeds and
the year is below min_year; a parse failure falls through. -/
def baseYearRejects (filters : Filters) (item : SeerItem) (mt : MediaType) : Bool :=
  match mt with
  | .tv =>
    match item.first_air_date with
    | some d =>
      if d ≠ "" then
        match pyInt? (dashLead d) with
        | some y => decide (y < filters.min_year)
        | none => false
      else false
    | none => false
  | .movie =>
    match item.release_date with
    | some d =>
      if d ≠ "" then
        match pyInt? (dashLead d) with
        | some y => decide (y < filters.min_year)
        | none => false
      else false
    | none => false

/-- Year-floor rule of SeerDiscoveryMediarrSensor.should_include_item
(discovery/seer_discovery.py lines 50-64): the parsed year is bound first
and the rejection test is written if year and year below min_year, so a
parsed year of 0 is falsy and never rejects. -/
def seerYearRejects (filters : Filters) (item : SeerItem) (mt : MediaType) : Bool :=
  match parsedYearOf item mt with
  | some y => decide (y ≠ 0) && decide (y < filters.min_year)
  | none => false

/-! The talk-show keyword heuristic and the remaining filter rules. -/

/-- The fixed keyword list shared verbatim by all is_talk_show variants. -/
def talkShowKeywords : List String :=
  [ "tonight show", "late show", "late night", "daily show"
  , "talk show", "with seth meyers", "with james corden"
  , "with jimmy", "with stephen", "with trevor", "news"
  , "live with", "watch what happens live", "the view"
  , "good morning", "today show", "kimmel", "colbert"
  , "fallon", "ellen", "conan", "graham norton", "meet the press"
  , "face the nation", "last week tonight", "real time"
  , "kelly and", "kelly &", "jeopardy", "wheel of fortune"
  , "daily mail", "entertainment tonight", "zeiten", "schlechte" ]

/-- TMDBMediaSensor.is_talk_show (common/tmdb_sensor.py lines 55-73):
guard on the exclude flag, then case-insensitive substring match against
the keyword list. -/
def baseIsTalkShow (filters : Filters) (title : String) : Bool :=
  if !filters.exclude_talk_shows then false
  else talkShowKeywords.any (fun k => strHas (strLower title) k)

/-- SeerDiscoveryMediarrSensor.is_talk_show (discovery/seer_discovery.py
lines 83-101): same as the base variant plus an early false on an empty
title. -/
def seerIsTalkShow (filters : Filters) (title : String) : Bool :=
  if !filters.exclude_talk_shows || title = "" then false
  else talkShowKeywords.any (fun k => strHas (strLower title) k)

/-- Python x or y for two strings: x when truthy, else y. -/
def pyOrStr (a b : String) : String :=
  if a ≠ "" then a else b

/-- TMDBMediaSensor.should_include_item (common/tmdb_sensor.py lines
75-108): year floor, then language, then genre, then the talk-show rule
for series. -/
def baseShouldIncludeItem (filters : Filters) (item : SeerItem) (mt : MediaType) : Bool :=
  if baseYearRejects filters item mt then false
  else if filters.exclude_non_english && !(item.original_language == some "en") then false
  else if item.genre_ids.any (fun g => filters.exclude_genres.contains g) then false
  else if mt == MediaType.tv && baseIsTalkShow filters (item.name.getD "") then false
  else true

/-- SeerDiscoveryMediarrSensor.should_include_item
(discovery/seer_discovery.py lines 44-81): its year rule treats a parsed
year of 0 as no year; the genre rule additionally guards on a non-empty
excluded-genre list; the talk-show title falls back from name to title. -/
def seerShouldIncludeItem (filters : Filters) (item : SeerItem) (mt : MediaType) : Bool :=
  if seerYearRejects filters item mt then false
  else if filters.exclude_non_english && !(item.original_language == some "en") then false
  else if !filters.exclude_genres.isEmpty
          && item.genre_ids.any (fun g => filters.exclude_genres.contains g) then false
  else if mt == MediaType.tv && filters.exclude_talk_shows
          && seerIsTalkShow filters (pyOrStr (item.name.getD "") (item.title.getD "")) then false
  else true

/-- C6 helper: the exact rejection predicate the claim states for the
year-floor rule, written from the spec words: the parse of the matching
date field succeeds and the year is strictly below the configured
minimum. -/
def claimedYearRejection (filters : Filters) (item : SeerItem) (mt : MediaType) : Prop :=
  ∃ y, parsedYearOf item mt = some y ∧ y < filters.min_year

/-- C6 (amended). The base variant (common/tmdb_sensor.py) rejects exactly
when the year parsed from the date field matching the media kind is below
the configured minimum, and never rejects an absent or unparsable date.
The Seer variant (discovery/seer_discovery.py) additionally lets a parsed
year of exactly 0 through, because its test first evaluates the year for
Python truthiness; otherwise it agrees with the claimed rule. -/
theorem c6_year_floor_theorem (filters : Filters) (item : SeerItem) (mt : MediaType) :
    (baseYearRejects filters item mt = true ↔ claimedYearRejection filters item mt)
    ∧ (seerYearRejects filters item mt = true
        ↔ (∃ y, parsedYearOf item mt = some y ∧ y ≠ 0 ∧ y < filters.min_year))
    ∧ (parsedYearOf item mt = none
        → baseYearRejects filters item mt = false ∧ seerYearRejects filters item mt = false) := by
  refine ⟨?_, ?_, ?_⟩
  · unfold baseYearRejects claimedYearRejection parsedYearOf
    cases mt with
    | tv =>
      cases item.first_air_date with
      | none => simp
      | some d =>
        by_cases hd : d = ""
        · simp [hd]
        · simp only [hd, if_neg, ne_eq, not_false_iff, if_pos]
          cases hy : pyInt? (dashLead d) with
          | none => simp
          | some y => simp
    | movie =>
      cases item.release_date with
      | none => simp
      | some d =>
        by_cases hd : d = ""
        · simp [hd]
        · simp only [hd, if_neg, ne_eq, not_false_iff, if_pos]
          cases hy : pyInt? (dashLead d) with
          | none => simp
          | some y => simp
  · unfold seerYearRejects
    cases hy : parsedYearOf item mt with
    | none => simp
    | some y => simp [and_assoc]
  · intro h
    unfold seerYearRejects
    rw [h]
    constructor
    · unfold baseYearRejects
      unfold parsedYearOf at h
      cases mt with
      | tv =>
        cases hf : item.first_air_date with
        | none => simp [hf]
        | some d =>
          rw [hf] at h
          by_cases hd : d = ""
          · simp [hd]
          · simp only [hd, if_neg, ne_eq, not_false_iff, if_pos] at h ⊢
            rw [h]
      | movie =>
        cases hf : item.release_date with
        | none => simp [hf]
        | some d =>
          rw [hf] at h
          by_cases hd : d = ""
          · simp [hd]
          · simp only [hd, if_neg, ne_eq, not_false_iff, if_pos] at h ⊢
            rw [h]
    · rfl

/-- C6 counterexample input: a movie whose release year parses to 0. -/
def c6item : SeerItem :=
  { id := some 1
  , title := some "Year Zero"
  , name := none
  , first_air_date := none
  , release_date := some "0000-01-01"
  , original_language := some "en"
  , genre_ids := [] }

/-- C6 filters with a positive year floor. -/
def c6filters : Filters :=
  { seerDefaultFilters with min_year := 1900 }

/-- C6 counterexample: on a movie dated 0000-01-01 with min_year 1900 the
parse succeeds with year 0, strictly below the floor, so the claimed rule
demands rejection; the Seer year rule does not reject (and the whole Seer
filter chain includes the item). -/
theorem c6_year_floor_counterexample :
    parsedYearOf c6item MediaType.movie = some 0
    ∧ (0 : Int) < c6filters.min_year
    ∧ seerYearRejects c6filters c6item MediaType.movie = false
    ∧ seerShouldIncludeItem c6filters c6item MediaType.movie = true := by
  refine ⟨by decide, by decide, by decide, by decide⟩

/-- C6 witness: the amended equivalences instantiated at the
counterexample input. -/
theorem c6_year_floor_witness :
    (baseYearRejects c6filters c6item MediaType.movie = true
      ↔ claimedYearRejection c6filters c6item MediaType.movie)
    ∧ (seerYearRejects c6filters c6item MediaType.movie = true
        ↔ (∃ y, parsedYearOf c6item MediaType.movie = some y ∧ y ≠ 0 ∧ y < c6filters.min_year))
    ∧ (parsedYearOf c6item MediaType.movie = none
        → baseYearRejects c6filters c6item MediaType.movie = false
          ∧ seerYearRejects c6filters c6item MediaType.movie = false) :=
  c6_year_floor_theorem c6filters c6item MediaType.movie

/-! Title variants of the enhanced search (server/plex.py lines 70-101). -/

/-- Match of the anchored pattern, optional whitespace, an open paren,
four digits, a close paren, optional whitespace, at the END of the title,
given the title reversed: on success the rest of the reversed title. -/
def yearParenRevMatch (rcs : List Char) : Option (List Char) :=
  match rcs.dropWhile pySpace with
  | ')' :: d1 :: d2 :: d3 :: d4 :: '(' :: r =>
    if d1.isDigit && d2.isDigit && d3.isDigit && d4.isDigit then some (r.dropWhile pySpace)
    else none
  | _ => none

/-- Python re.sub of the anchored trailing-year pattern replaced by the
empty string, then str.strip(): the trailing (YYYY) suffix and the
whitespace around it removed when present, and the result stripped. -/
def stripYearSuffix (title : String) : String :=
  match yearParenRevMatch title.data.reverse with
  | some r => pyStrip (String.mk r.reverse)
  | none => pyStrip title

/-- Match of the unanchored pattern, optional whitespace, an open paren,
any characters other than a close paren, a close paren, optional
whitespace, at the head of the list: on success the rest of the list. -/
def parenMatchAt (cs : List Char) : Option (List Char) :=
  match cs.dropWhile pySpace with
  | c :: r2 =>
    if c = '(' then
      match r2.dropWhile (fun x => x ≠ ')') with
      | d :: r4 => if d = ')' then some (r4.dropWhile pySpace) else none
      | [] => none
    else none
  | [] => none

/-- Left-to-right scan of re.sub replacing every parenthesized segment
(with surrounding whitespace) by a single space. The fuel argument only
bounds the recursion; every step consumes at least one character, so a
fuel of one more than the length is never exhausted. -/
def scanParens : Nat → List Char → List Char
  | 0, cs => cs
  | fuel + 1, cs =>
    match parenMatchAt cs with
    | some rest => ' ' :: scanParens fuel rest
    | none =>
      match cs with
      | [] => []
      | c :: crest => c :: scanParens fuel crest

/-- Python re.sub replacing every parenthesized segment by a space, then
str.strip(). -/
def stripAllParens (title : String) : String :=
  pyStrip (String.mk (scanParens (title.data.length + 1) title.data))

/-- Whether the title contains a colon: Python colon in title. -/
def hasColon (title : String) : Bool :=
  title.data.any (fun c => c = ':')

/-- Python title.split(colon, 1)[0].strip(): the stripped text before the
first colon. -/
def beforeColon (title : String) : String :=
  pyStrip (String.mk (title.data.takeWhile (fun c => c ≠ ':')))

/-- TMDBMediaSensor._search_tmdb (common/tmdb_sensor.py lines 223-252)
as a pure function of a deterministic upstream search: an empty title
returns none without a call; otherwise the identifier at index 0 of the
results array, none when the fetch failed or the results array is falsy.
The memoization layer of the same function is modelled separately with
explicit cache state. -/
def searchTmdbPure (upstream : String → Option Int → MediaType → String → Option (List Int))
    (title : String) (year : Option Int) (mt : MediaType) (lang : String) : Option Int :=
  if title = "" then none
  else
    match upstream title year mt lang with
    | some (r :: _) => some r
    | _ => none

/-- PlexMediarrSensor._enhanced_tmdb_search (server/plex.py lines 70-101),
parameterized by the per-title search it delegates to (year and media
kind are fixed across the variants, exactly as in the source): exact
title first; the title without a trailing year suffix when that differs;
the title without parenthesized segments when that differs from both;
finally the text before the first colon when the title has one and that
text is longer than 3 characters. -/
def enhancedTmdbSearch (search : String → Option Int) (title : String) : Option Int :=
  match search title with
  | some i => some i
  | none =>
    match (if stripYearSuffix title ≠ title then search (stripYearSuffix title) else none) with
    | some i => some i
    | none =>
      match (if stripAllParens title ≠ title ∧ stripAllParens title ≠ stripYearSuffix title
              then search (stripAllParens title) else none) with
      | some i => some i
      | none =>
        if hasColon title then
          if (beforeColon title).length > 3 then search (beforeColon title) else none
        else none

/-- C3 helper, written from the spec words: the variant list in the
claimed order, with the colon variant present only under the claimed
condition. -/
def titleVariants (title : String) : List String :=
  [title, stripYearSuffix title, stripAllParens title]
    ++ (if hasColon title ∧ (beforeColon title).length > 3 then [beforeColon title] else [])

/-- C3 helper, written from the spec words: try each variant in order and
return the first successful search result. -/
def resolveSpecChain (search : String → Option Int) (title : String) : Option Int :=
  (titleVariants title).findSome? search

/-- Skipping a variant equal to an earlier one is the same as retrying it,
because the per-title search is a function: the source resolver equals the
spec chain over the full variant list. -/
theorem enhanced_eq_chain (search : String → Option Int) (title : String) :
    enhancedTmdbSearch search title = resolveSpecChain search title := by
  have hcolon : (if hasColon title = true
        then (if (beforeColon title).length > 3 then search (beforeColon title) else none)
        else none)
      = (if hasColon title = true ∧ (beforeColon title).length > 3
          then search (beforeColon title) else none) := by
    by_cases hc : hasColon title = true
    · by_cases hl : (beforeColon title).length > 3
      · rw [if_pos hc, if_pos hl, if_pos ⟨hc, hl⟩]
      · rw [if_pos hc, if_neg hl, if_neg (fun h => hl h.2)]
    · rw [if_neg hc, if_neg (fun h => hc h.1)]
  have hspec : resolveSpecChain search title =
      (match search title with
       | some i => some i
       | none =>
         match search (stripYearSuffix title) with
         | some i => some i
         | none =>
           match search (stripAllParens title) with
           | some i => some i
           | none =>
             if hasColon title = true ∧ (beforeColon title).length > 3
             then search (beforeColon title) else none) := by
    unfold resolveSpecChain titleVariants
    by_cases h4 : hasColon title = true ∧ (beforeColon title).length > 3
    · rw [if_pos h4]
      simp only [List.cons_append, List.nil_append, List.findSome?]
      cases search title with
      | some i => rfl
      | none =>
        cases search (stripYearSuffix title) with
        | some i => rfl
        | none =>
          cases search (stripAllParens title) with
          | some i => rfl
          | none =>
            rw [if_pos h4]
            cases search (beforeColon title) with
            | some i => rfl
            | none => rfl
    · rw [if_neg h4]
      simp only [List.append_nil, List.findSome?]
      cases search title with
      | some i => rfl
      | none =>
        cases search (stripYearSuffix title) with
        | some i => rfl
        | none =>
          cases search (stripAllParens title) with
          | some i => rfl
          | none => rw [if_neg h4]
  rw [hspec]
  unfold enhancedTmdbSearch
  cases h1 : search title with
  | some i => rfl
  | none =>
    simp only
    by_cases h2 : stripYearSuffix title = title
    · have e2 : search (stripYearSuffix title) = none := by rw [h2]; exact h1
      rw [if_neg (by simp [h2])]
      simp only [e2]
      by_cases h3 : stripAllParens title = title
      · have e3 : search (stripAllParens title) = none := by rw [h3]; exact h1
        rw [if_neg (by simp [h3])]
        simp only [e3]
        exact hcolon
      · rw [if_pos ⟨h3, by rw [h2]; exact h3⟩]
        cases h6 : search (stripAllParens title) with
        | some i => rfl
        | none =>
          simp only
          exact hcolon
    · rw [if_pos h2]
      cases h5 : search (stripYearSuffix title) with
      | some i => rfl
      | none =>
        simp only
        by_cases h3a : stripAllParens title = title
        · have e3 : search (stripAllParens title) = none := by rw [h3a]; exact h1
          rw [if_neg (by simp [h3a])]
          simp only [e3]
          exact hcolon
        · by_cases h3b : stripAllParens title = stripYearSuffix title
          · have e3 : search (stripAllParens title) = none := by rw [h3b]; exact h5
            rw [if_neg (by simp [h3b])]
            simp only [e3]
            exact hcolon
          · rw [if_pos ⟨h3a, h3b⟩]
            cases h6 : search (stripAllParens title) with
            | some i => rfl
            | none =>
              simp only
              exact hcolon

/-- C3 (confirmed). The enhanced search over the pure memo-free search
equals the first-success chain over the claimed variant list in the
claimed order, and the underlying search returns exactly the identifier
at index 0 of a successful result set, never a later one (head of the
results list), and none when every variant fails (both sides return none
exactly then, by the equality). -/
theorem c3_title_resolver_theorem
    (upstream : String → Option Int → MediaType → String → Option (List Int))
    (year : Option Int) (mt : MediaType) (lang : String) (title t : String) (res : List Int) :
    enhancedTmdbSearch (fun v => searchTmdbPure upstream v year mt lang) title
      = resolveSpecChain (fun v => searchTmdbPure upstream v year mt lang) title
    ∧ (upstream t year mt lang = some res → t ≠ ""
        → searchTmdbPure upstream t year mt lang = res.head?) := by
  constructor
  · exact enhanced_eq_chain _ title
  · intro hres ht
    unfold searchTmdbPure
    rw [if_neg ht, hres]
    cases res <;> simp

/-- C3 concrete upstream: only the exact query, The Matrix, succeeds. -/
def c3upstream : String → Option Int → MediaType → String → Option (List Int) :=
  fun v _ _ _ => if v = "The Matrix" then some [603, 604] else none

/-- C3 witness: the resolver equality and the index-0 property evaluated
at a concrete upstream and title. -/
theorem c3_title_resolver_witness :
    (enhancedTmdbSearch (fun v => searchTmdbPure c3upstream v none MediaType.movie "en") "The Matrix"
        = resolveSpecChain (fun v => searchTmdbPure c3upstream v none MediaType.movie "en") "The Matrix"
      ∧ (c3upstream "The Matrix" none MediaType.movie "en" = some [603, 604] → "The Matrix" ≠ ""
          → searchTmdbPure c3upstream "The Matrix" none MediaType.movie "en" = [603, 604].head?))
    ∧ enhancedTmdbSearch (fun v => searchTmdbPure c3upstream v none MediaType.movie "en") "The Matrix"
        = some 603 :=
  ⟨c3_title_resolver_theorem c3upstream none MediaType.movie "en" "The Matrix" "The Matrix" [603, 604],
   by decide⟩

/-! Stable descending sort by an integer key: the model of Python
list.sort(key, reverse=True), which is specified as stable. Insertion
from the right end, placing each element before the first strictly
smaller key, realizes exactly the stable descending order. -/

/-- Insert x before the first element with a strictly smaller key. All
elements already in the list sit earlier in the original order, so on
equal keys x goes first: stability for a right-fold insertion sort. -/
def insDescBy {α : Type} (key : α → Int) (x : α) : List α → List α
  | [] => [x]
  | y :: ys => if key y ≤ key x then x :: y :: ys else y :: insDescBy key x ys

/-- Stable descending sort by key. -/
def sortDescBy {α : Type} (key : α → Int) : List α → List α
  | [] => []
  | x :: xs => insDescBy key x (sortDescBy key xs)

/-- The first element of x :: xs attaining the maximal key. -/
def pickMaxBy {α : Type} (key : α → Int) (x : α) : List α → α
  | [] => x
  | y :: ys => if key (pickMaxBy key y ys) ≤ key x then x else pickMaxBy key y ys

/-- The list x :: xs with its first maximal-key element removed. -/
def dropMaxBy {α : Type} (key : α → Int) (x : α) : List α → List α
  | [] => []
  | y :: ys => if key (pickMaxBy key y ys) ≤ key x then y :: ys else x :: dropMaxBy key y ys

/-- Unfolding equation of the insertion on a cons cell. -/
theorem insDescBy_cons {α : Type} (key : α → Int) (x y : α) (l : List α) :
    insDescBy key x (y :: l)
      = if key y ≤ key x then x :: y :: l else y :: insDescBy key x l := rfl

/-- Unfolding equation of the sort on a cons cell. -/
theorem sortDescBy_cons {α : Type} (key : α → Int) (x : α) (xs : List α) :
    sortDescBy key (x :: xs) = insDescBy key x (sortDescBy key xs) := rfl

/-- Unfolding equation of the first-maximum pick on a cons cell. -/
theorem pickMaxBy_cons {α : Type} (key : α → Int) (x y : α) (ys : List α) :
    pickMaxBy key x (y :: ys)
      = if key (pickMaxBy key y ys) ≤ key x then x else pickMaxBy key y ys := rfl

/-- Unfolding equation of the first-maximum removal on a cons cell. -/
theorem dropMaxBy_cons {α : Type} (key : α → Int) (x y : α) (ys : List α) :
    dropMaxBy key x (y :: ys)
      = if key (pickMaxBy key y ys) ≤ key x then y :: ys else x :: dropMaxBy key y ys := rfl

/-- Selection characterization of the stable descending sort: the head is
the first maximal element and the tail sorts the rest. -/
theorem sortDescBy_sel {α : Type} (key : α → Int) (x : α) (xs : List α) :
    sortDescBy key (x :: xs)
      = pickMaxBy key x xs :: sortDescBy key (dropMaxBy key x xs) := by
  induction xs generalizing x with
  | nil => rfl
  | cons y ys ih =>
    by_cases h : key (pickMaxBy key y ys) ≤ key x
    · rw [sortDescBy_cons, ih y, insDescBy_cons, if_pos h, pickMaxBy_cons, if_pos h,
        dropMaxBy_cons, if_pos h, ih y]
    · rw [sortDescBy_cons, ih y, insDescBy_cons, if_neg h, pickMaxBy_cons, if_neg h,
        dropMaxBy_cons, if_neg h, sortDescBy_cons]

/-- The first maximal element belongs to the list. -/
theorem pickMaxBy_mem {α : Type} (key : α → Int) (x : α) (xs : List α) :
    pickMaxBy key x xs ∈ x :: xs := by
  induction xs generalizing x with
  | nil => simp [pickMaxBy]
  | cons y ys ih =>
    rw [pickMaxBy]
    by_cases h : key (pickMaxBy key y ys) ≤ key x
    · rw [if_pos h]; exact List.mem_cons_self x _
    · rw [if_neg h]
      exact List.mem_cons_of_mem x (ih y)

/-- Every key in the list is at most the key of the first maximal
element. -/
theorem pickMaxBy_ge {α : Type} (key : α → Int) (x : α) (xs : List α) :
    ∀ z ∈ x :: xs, key z ≤ key (pickMaxBy key x xs) := by
  induction xs generalizing x with
  | nil =>
    intro z hz
    rw [List.mem_singleton] at hz
    subst hz
    exact le_refl _
  | cons y ys ih =>
    intro z hz
    rw [pickMaxBy]
    by_cases h : key (pickMaxBy key y ys) ≤ key x
    · rw [if_pos h]
      rcases List.mem_cons.mp hz with hz1 | hz2
      · subst hz1; exact le_refl _
      · exact le_trans (ih y z hz2) h
    · rw [if_neg h]
      rcases List.mem_cons.mp hz with hz1 | hz2
      · subst hz1; exact le_of_lt (lt_of_not_le h)
      · exact ih y z hz2

/-- Removing the first maximal element shortens the list by one. -/
theorem dropMaxBy_length {α : Type} (key : α → Int) (x : α) (xs : List α) :
    (dropMaxBy key x xs).length = xs.length := by
  induction xs generalizing x with
  | nil => rfl
  | cons y ys ih =>
    rw [dropMaxBy]
    by_cases h : key (pickMaxBy key y ys) ≤ key x
    · rw [if_pos h]
    · rw [if_neg h]
      simp [ih y]

/-- Sorting preserves length. -/
theorem sortDescBy_length {α : Type} (key : α → Int) (l : List α) :
    (sortDescBy key l).length = l.length := by
  induction l with
  | nil => rfl
  | cons x xs ih =>
    have h : ∀ (a : α) (m : List α), (insDescBy key a m).length = m.length + 1 := by
      intro a m
      induction m with
      | nil => rfl
      | cons b bs ihm =>
        rw [insDescBy]
        by_cases hb : key b ≤ key a
        · rw [if_pos hb]; rfl
        · rw [if_neg hb]; simp [ihm]
    show (insDescBy key x (sortDescBy key xs)).length = xs.length + 1
    rw [h x (sortDescBy key xs), ih]

/-! Image resolution (common/tmdb_sensor.py _get_tmdb_images, lines
165-221). -/

/-- One entry of the posters or backdrops array: file_path may be absent
and vote_count defaults to 0 when absent, as the source reads them with
dict.get. -/
structure TMDBImage where
  file_path : Option String
  vote_count : Int
deriving DecidableEq

/-- The parsed images response body: missing arrays read as empty lists. -/
structure ImagesData where
  posters : List TMDBImage
  backdrops : List TMDBImage
deriving DecidableEq

/-- The image host base URL constant of the source. -/
def TMDB_IMAGE_BASE_URL : String := "https://image.tmdb.org/t/p"

/-- Python image URL construction guarded by path truthiness: the f-string
of base, size preset and path when the path is truthy, else None. -/
def mkImageUrl (size : String) (p : Option String) : Option String :=
  match p with
  | some s => if s ≠ "" then some (TMDB_IMAGE_BASE_URL ++ "/" ++ size ++ s) else none
  | none => none

/-- Vote count key of the backdrop sort. -/
def imgVotes (i : TMDBImage) : Int := i.vote_count

/-- The first available poster mapped to its w500 URL. -/
def posterUrlOf (posters : List TMDBImage) : Option String :=
  match posters with
  | [] => none
  | p :: _ => mkImageUrl "w500" p.file_path

/-- The backdrop pair from the vote-sorted backdrop list: w780 URL of
entry 0 and original-resolution URL of entry 1, or of entry 0 again when
only one backdrop exists. -/
def backdropPairOf (backdrops : List TMDBImage) : Option String × Option String :=
  match sortDescBy imgVotes backdrops with
  | [] => (none, none)
  | b :: rest =>
    (mkImageUrl "w780" b.file_path,
     mkImageUrl "original" (match rest with | [] => b.file_path | b2 :: _ => b2.file_path))

/-- The poster-as-backdrop fallback: when a poster URL exists, each
missing backdrop slot receives the poster URL (every constructed URL is a
non-empty string, so Python truthiness is isSome here). -/
def fallbackFill (p b m : Option String) : Option String × Option String × Option String :=
  (p, if p.isSome && b.isNone then p else b, if p.isSome && m.isNone then p else m)

/-- TMDBMediaSensor._get_tmdb_images value computation: a falsy id or a
failed fetch yields three Nones; otherwise first poster, vote-sorted
backdrops and the poster fallback. The memoization dict is dropped from
this pure view (a hit returns a previously computed value of the same
function). -/
def getTmdbImages (tmdb_id : String) (data : Option ImagesData) :
    Option String × Option String × Option String :=
  if tmdb_id = "" then (none, none, none)
  else
    match data with
    | none => (none, none, none)
    | some d =>
      fallbackFill (posterUrlOf d.posters) (backdropPairOf d.backdrops).1
        (backdropPairOf d.backdrops).2

/-- C4 helper, written from the spec words: primary backdrop is the first
backdrop attaining the highest vote count; secondary is the first
attaining the second-highest (the maximum after removing the primary), or
the primary again when only one backdrop exists. -/
def specBackdropPair (backdrops : List TMDBImage) : Option String × Option String :=
  match backdrops with
  | [] => (none, none)
  | b :: bs =>
    (mkImageUrl "w780" (pickMaxBy imgVotes b bs).file_path,
     mkImageUrl "original"
       (match dropMaxBy imgVotes b bs with
        | [] => (pickMaxBy imgVotes b bs).file_path
        | c :: cs => (pickMaxBy imgVotes c cs).file_path))

/-- C4 helper, written from the spec words: first poster, the claimed
backdrop selection, and the poster fallback on missing backdrop slots. -/
def resolveImagesSpec (d : ImagesData) : Option String × Option String × Option String :=
  fallbackFill (posterUrlOf d.posters) (specBackdropPair d.backdrops).1
    (specBackdropPair d.backdrops).2

/-- C4 helper: the maximality reading of the claimed selection, as a
proposition about the backdrop list. -/
def backdropChoiceIsMaximal (l : List TMDBImage) : Prop :=
  match l with
  | [] => True
  | b :: bs =>
    pickMaxBy imgVotes b bs ∈ b :: bs
    ∧ (∀ z ∈ b :: bs, imgVotes z ≤ imgVotes (pickMaxBy imgVotes b bs))
    ∧ (match dropMaxBy imgVotes b bs with
       | [] => (b :: bs).length = 1
       | c :: cs =>
         pickMaxBy imgVotes c cs ∈ c :: cs
         ∧ ∀ z ∈ c :: cs, imgVotes z ≤ imgVotes (pickMaxBy imgVotes c cs))

/-- The source backdrop pair equals the claimed selection. -/
theorem backdropPair_eq_spec (l : List TMDBImage) :
    backdropPairOf l = specBackdropPair l := by
  cases l with
  | nil => rfl
  | cons b bs =>
    rw [backdropPairOf, sortDescBy_sel, specBackdropPair]
    cases hd : dropMaxBy imgVotes b bs with
    | nil => rfl
    | cons c cs =>
      rw [sortDescBy_sel]

/-- C4 (confirmed). For a truthy catalog identifier and a fetched images
body: the pipeline picks the first poster, picks the highest-vote-count
backdrop as primary and the second-highest as secondary (or duplicates
the single one), and fills a missing backdrop slot from the poster; the
chosen backdrops are maximal in the claimed sense. -/
theorem c4_images_theorem (tmdb_id : String) (d : ImagesData) (h : tmdb_id ≠ "") :
    getTmdbImages tmdb_id (some d) = resolveImagesSpec d
    ∧ backdropChoiceIsMaximal d.backdrops := by
  constructor
  · rw [getTmdbImages, if_neg h]
    show fallbackFill _ (backdropPairOf d.backdrops).1 (backdropPairOf d.backdrops).2
        = resolveImagesSpec d
    rw [backdropPair_eq_spec]
    rfl
  · cases hb : d.backdrops with
    | nil => exact trivial
    | cons b bs =>
      refine ⟨pickMaxBy_mem imgVotes b bs, pickMaxBy_ge imgVotes b bs, ?_⟩
      cases hd : dropMaxBy imgVotes b bs with
      | nil =>
        show (b :: bs).length = 1
        have hlen := dropMaxBy_length imgVotes b bs
        rw [hd] at hlen
        simp only [List.length_nil] at hlen
        simp [List.length_cons, ← hlen]
      | cons c cs =>
        exact ⟨pickMaxBy_mem imgVotes c cs, pickMaxBy_ge imgVotes c cs⟩

/-- C4 concrete images body: two posters and three backdrops with
distinct vote counts. -/
def c4data : ImagesData :=
  { posters := [⟨some "/p1.jpg", 2⟩, ⟨some "/p2.jpg", 9⟩]
  , backdrops := [⟨some "/b1.jpg", 1⟩, ⟨some "/b2.jpg", 7⟩, ⟨some "/b3.jpg", 4⟩] }

/-- C4 witness: the equality and the maximality statement at a concrete
identifier and images body. -/
theorem c4_images_witness :
    getTmdbImages "603" (some c4data) = resolveImagesSpec c4data
    ∧ backdropChoiceIsMaximal c4data.backdrops :=
  c4_images_theorem "603" c4data (by decide)

/-! The catalog fetch (common/tmdb_sensor.py _fetch_tmdb_data, lines
110-161). One HTTP attempt is one element of a response stream; an
attempt ends in a status with a parsed body, or in a transport exception
(timeout, connection error, body parse error - all caught by the one
except clause). -/

/-- Outcome of one HTTP attempt against the catalog. -/
inductive HttpStep (α : Type) where
  | success (status : Nat) (body : α)
  | transportError
deriving DecidableEq

/-- Status handling of one response, identical in the params and
no-params branches of the source: 200 returns the parsed body, 404 logs
at debug and returns None, any other status logs an error and returns
None, and the except clause turns any transport exception into None. -/
def interpretTmdbResponse {α : Type} : HttpStep α → Option α
  | .success status body => if status = 200 then some body else if status = 404 then none else none
  | .transportError => none

/-- TMDBMediaSensor._fetch_tmdb_data over a response stream: a missing
API key returns None before any HTTP call; otherwise exactly one response
is consumed and interpreted, with no retry on any outcome. An empty
stream stands for no reachable upstream and consumes nothing. -/
def fetchTmdbData {α : Type} (apiKey : String) (responses : List (HttpStep α)) :
    Option α × List (HttpStep α) :=
  if apiKey = "" then (none, responses)
  else
    match responses with
    | [] => (none, [])
    | r :: rest => (interpretTmdbResponse r, rest)

/-- C5 (confirmed). With an API key present: HTTP 200 returns the parsed
body, HTTP 404 returns absence, any other status returns absence, a
transport exception returns absence, and every call consumes exactly one
response from the stream - a failed call is never retried. -/
theorem c5_fetch_theorem {α : Type} (apiKey : String) (b : α) (status : Nat)
    (r : HttpStep α) (rest : List (HttpStep α)) (hk : apiKey ≠ "") :
    fetchTmdbData apiKey (HttpStep.success 200 b :: rest) = (some b, rest)
    ∧ fetchTmdbData apiKey (HttpStep.success 404 b :: rest) = (none, rest)
    ∧ (status ≠ 200 → status ≠ 404
        → fetchTmdbData apiKey (HttpStep.success status b :: rest) = (none, rest))
    ∧ fetchTmdbData apiKey (HttpStep.transportError :: rest) = (none, rest)
    ∧ (fetchTmdbData apiKey (r :: rest)).2 = rest := by
  refine ⟨?_, ?_, ?_, ?_, ?_⟩
  · rw [fetchTmdbData, if_neg hk]
    rfl
  · rw [fetchTmdbData, if_neg hk]
    rfl
  · intro h200 h404
    rw [fetchTmdbData, if_neg hk]
    show (interpretTmdbResponse (HttpStep.success status b), rest) = (none, rest)
    rw [interpretTmdbResponse, if_neg h200, if_neg h404]
  · rw [fetchTmdbData, if_neg hk]
    rfl
  · rw [fetchTmdbData, if_neg hk]

/-- C5 witness: the five outcomes at a concrete key, body and status. -/
theorem c5_fetch_witness :
    fetchTmdbData "key" (HttpStep.success 200 (7 : Int) :: []) = (some 7, [])
    ∧ fetchTmdbData "key" (HttpStep.success 404 (7 : Int) :: []) = (none, [])
    ∧ ((500 : Nat) ≠ 200 → (500 : Nat) ≠ 404
        → fetchTmdbData "key" (HttpStep.success 500 (7 : Int) :: []) = (none, []))
    ∧ fetchTmdbData "key" ((HttpStep.transportError : HttpStep Int) :: []) = (none, [])
    ∧ (fetchTmdbData "key" (HttpStep.success 200 (7 : Int) :: [])).2 = [] :=
  c5_fetch_theorem "key" (7 : Int) 500 (HttpStep.success 200 7) [] (by decide)

/-! The Seer discovery enrichment pipeline
(discovery/seer_discovery.py _process_media_items and async_update,
lines 174-325). -/

/-- A details record as _get_tmdb_details returns it: title, overview and
four-character year, all strings. -/
structure Details where
  title : String
  overview : String
  year : String
deriving DecidableEq

/-- Python x or y chain for optional strings with truthiness: the first
truthy operand, else the second. -/
def pyOrOpt (a b : Option String) : Option String :=
  if pyTruthy a then a else b

/-- Python str(x or empty) on an optional URL. -/
def pyOrEmpty (a : Option String) : String :=
  match a with
  | some s => s
  | none => ""

/-- The record one Seer item becomes (the dict literal of process_item,
discovery/seer_discovery.py lines 214-225). -/
structure SeerRecord where
  title : String
  overview : String
  year : String
  poster : String
  fanart : String
  banner : String
  release : String
  type : String
  flag : Nat
  id : String
deriving DecidableEq

/-- SeerDiscoveryMediarrSensor._process_media_items process_item, for one
item: the requested-set gate, the filter gate, the details fetch gate,
then the image fetch and the record literal. The details and images
oracles stand for the awaited TMDB calls of one cycle (deterministic
within the cycle); per-item exceptions are already absorbed inside the
oracles and the internal try of the source. -/
def processItem (requested : List String) (details : String → MediaType → Option Details)
    (images : String → MediaType → Option String × Option String × Option String)
    (filters : Filters) (mt : MediaType) (item : SeerItem) : Option SeerRecord :=
  let tmdb_id := pyStrOfOptInt item.id
  -- the source guard, if not tmdb_id, never fires: str() of the id is a
  -- non-empty string even for a missing id (the string None)
  if requested.contains tmdb_id then none
  else if !seerShouldIncludeItem filters item mt then none
  else
    match details tmdb_id mt with
    | none => none
    | some d =>
      let (poster_url, backdrop_url, main_backdrop_url) := images tmdb_id mt
      some
        { title := d.title
        , overview := if d.overview ≠ "" then d.overview.take 100 ++ "..." else "No overview available"
        , year := d.year
        , poster := pyOrEmpty poster_url
        , fanart := pyOrEmpty (pyOrOpt main_backdrop_url backdrop_url)
        , banner := pyOrEmpty backdrop_url
        , release := d.year
        , type := match mt with | .movie => "Movie" | .tv => "TV Show"
        , flag := 1
        , id := tmdb_id }

/-- SeerDiscoveryMediarrSensor._process_media_items: no data or a falsy
results array yields the empty list; otherwise the per-item results in
input order (asyncio.gather keeps task order) with the None and exception
entries dropped. -/
def processMediaItems (requested : List String) (details : String → MediaType → Option Details)
    (images : String → MediaType → Option String × Option String × Option String)
    (filters : Filters) (mt : MediaType) (data : Option (List SeerItem)) : List SeerRecord :=
  match data with
  | none => []
  | some items => items.filterMap (processItem requested details images filters mt)

/-- The fixed fallback card of the Seer discovery sensor
(discovery/seer_discovery.py lines 308-314). -/
structure SeerFallbackCard where
  title_default : String
  line1_default : String
  line2_default : String
  line3_default : String
  icon : String
deriving DecidableEq

/-- The literal fallback card appended when no item passed. -/
def seerFallback : SeerFallbackCard :=
  { title_default := "$title"
  , line1_default := "$type"
  , line2_default := "$overview"
  , line3_default := "$year"
  , icon := "mdi:movie-search" }

/-- One element of the published data list of the Seer sensor: a
processed record, or the fallback card in the empty case. -/
inductive SeerDatum where
  | item (r : SeerRecord)
  | fallback (c : SeerFallbackCard)
deriving DecidableEq

/-- Catalog identifier of a published Seer datum, none on the fallback
card. -/
def seerDatumId : SeerDatum → Option String
  | .item r => some r.id
  | .fallback _ => none

/-- Published state of a sensor: the state count, the data attribute and
the availability flag. -/
structure SensorState (δ : Type) where
  state : Nat
  data : List δ
  available : Bool
deriving DecidableEq

/-- The inputs of one successful Seer discover cycle: the
already-requested set, the two per-cycle TMDB oracles, the filters, the
two upstream discover pages and the item cap. -/
structure SeerCycle where
  requested : List String
  details : String → MediaType → Option Details
  images : String → MediaType → Option String × Option String × Option String
  filters : Filters
  movieData : Option (List SeerItem)
  tvData : Option (List SeerItem)
  max_items : Nat

/-- SeerDiscoveryMediarrSensor.async_update, discover branch, success
path (lines 259-318): process movies then tv, concatenate, truncate to
max_items, append the fallback card when empty, then publish the length
as the state. -/
def seerDiscoverOk (c : SeerCycle) : SensorState SeerDatum :=
  let m := processMediaItems c.requested c.details c.images c.filters MediaType.movie c.movieData
  let t := processMediaItems c.requested c.details c.images c.filters MediaType.tv c.tvData
  let all_items := (m ++ t).take c.max_items
  let out := if all_items.isEmpty then [SeerDatum.fallback seerFallback]
             else all_items.map SeerDatum.item
  { state := out.length, data := out, available := true }

/-- SeerDiscoveryMediarrSensor.async_update with its outer try: a cycle
that raises resets the state to zero, the data to empty and the sensor to
unavailable, regardless of the previous state. -/
def seerAsyncUpdate (_prev : SensorState SeerDatum) (cycle : Except String SeerCycle) :
    SensorState SeerDatum :=
  match cycle with
  | .ok c => seerDiscoverOk c
  | .error _ => { state := 0, data := [], available := false }

/-! The TMDB discovery sensor final stage (discovery/tmdb.py
async_update, lines 278-297). -/

/-- A result entry as the fetch loop of TMDBMediarrSensor.async_update
appends it. The popularity and vote_average fields are carried through
unchanged and unread by the final stage, so they are not modelled. -/
structure TmdbRecord where
  title : Option String
  type : String
  year : String
  overview : String
  poster : Option String
  backdrop : Option String
  tmdb_id : Option Int
deriving DecidableEq

/-- The dedup loop over seen_ids: keep the first record per tmdb_id value
(None is one value, as in the Python set). -/
def dedupByIdAux (seen : List (Option Int)) : List TmdbRecord → List TmdbRecord
  | [] => []
  | r :: rs =>
    if r.tmdb_id ∈ seen then dedupByIdAux seen rs
    else r :: dedupByIdAux (r.tmdb_id :: seen) rs

/-- The unique_results list of the source. -/
def tmdbUnique (results : List TmdbRecord) : List TmdbRecord :=
  dedupByIdAux [] results

/-- The filtered_results list of the source: every record whose tmdb_id
is the literal 137228 removed after deduplication. -/
def tmdbFiltered (results : List TmdbRecord) : List TmdbRecord :=
  (tmdbUnique results).filter (fun r => !(r.tmdb_id == some 137228))

/-- TMDBMediarrSensor.async_update final stage: the state is the full
filtered count, and the data attribute is the filtered list truncated to
max_items. No fallback card exists in this sensor. -/
def tmdbFinalize (results : List TmdbRecord) (max_items : Nat) : SensorState TmdbRecord :=
  { state := (tmdbFiltered results).length
  , data := (tmdbFiltered results).take max_items
  , available := true }

/-- TMDBMediarrSensor.async_update with its outer try: any raise resets
to the zero state and marks the sensor unavailable. -/
def tmdbAsyncUpdate (_prev : SensorState TmdbRecord)
    (cycle : Except String (List TmdbRecord × Nat)) : SensorState TmdbRecord :=
  match cycle with
  | .ok (results, max_items) => tmdbFinalize results max_items
  | .error _ => { state := 0, data := [], available := false }

/-! The Plex sensor final stage (server/plex.py async_update, lines
359-388). -/

/-- A processed Plex item at the final stage: the added_at sort key (the
source converts the string with int()) and the title as the payload the
claims read; the other display fields do not influence the final stage. -/
structure PlexRecord where
  title : String
  added_at : Int
deriving DecidableEq

/-- The fixed fallback card of the Plex sensor (server/plex.py lines
371-378). -/
structure PlexFallbackCard where
  title_default : String
  line1_default : String
  line2_default : String
  line3_default : String
  line4_default : String
  icon : String
deriving DecidableEq

/-- The literal Plex fallback card. -/
def plexFallback : PlexFallbackCard :=
  { title_default := "$title"
  , line1_default := "$episode"
  , line2_default := "$release"
  , line3_default := "$number - $rating - $runtime"
  , line4_default := "$genres"
  , icon := "mdi:eye-off" }

/-- One element of the published Plex data list. -/
inductive PlexDatum where
  | item (r : PlexRecord)
  | fallback (c : PlexFallbackCard)
deriving DecidableEq

/-- PlexMediarrSensor.async_update final stage: sort the processed items
by added_at descending, truncate to max_items into card_json, append the
fallback card when card_json is empty, publish card_json as data and the
FULL recently_added length as the state. -/
def plexFinalize (recently_added : List PlexRecord) (max_items : Nat) : SensorState PlexDatum :=
  let sorted := sortDescBy (fun r => r.added_at) recently_added
  let card_json := sorted.take max_items
  let out := if card_json.isEmpty then [PlexDatum.fallback plexFallback]
             else card_json.map PlexDatum.item
  { state := recently_added.length, data := out, available := true }

/-- PlexMediarrSensor.async_update with its outer try: any raise resets
to the zero state and marks the sensor unavailable. -/
def plexAsyncUpdate (_prev : SensorState PlexDatum)
    (cycle : Except String (List PlexRecord × Nat)) : SensorState PlexDatum :=
  match cycle with
  | .ok (recently_added, max_items) => plexFinalize recently_added max_items
  | .error _ => { state := 0, data := [], available := false }

/-! Claims about the final stages: dedup, truncation, placeholder, state
count, the hard-coded exclusion and the reset on failure. -/

/-- Unfolding equation of the dedup loop on a cons cell. -/
theorem dedupByIdAux_cons (seen : List (Option Int)) (r : TmdbRecord) (rs : List TmdbRecord) :
    dedupByIdAux seen (r :: rs)
      = if r.tmdb_id ∈ seen then dedupByIdAux seen rs
        else r :: dedupByIdAux (r.tmdb_id :: seen) rs := rfl

/-- The dedup loop emits pairwise distinct identifiers, none of them
already seen. -/
theorem dedupByIdAux_spec (l : List TmdbRecord) : ∀ seen : List (Option Int),
    ((dedupByIdAux seen l).map (fun r => r.tmdb_id)).Nodup
    ∧ ∀ x ∈ (dedupByIdAux seen l).map (fun r => r.tmdb_id), x ∉ seen := by
  induction l with
  | nil =>
    intro seen
    exact ⟨List.nodup_nil, by simp [dedupByIdAux]⟩
  | cons r rs ih =>
    intro seen
    by_cases h : r.tmdb_id ∈ seen
    · rw [dedupByIdAux_cons, if_pos h]
      exact ih seen
    · rw [dedupByIdAux_cons, if_neg h]
      constructor
      · rw [List.map_cons, List.nodup_cons]
        constructor
        · intro hmem
          exact ((ih (r.tmdb_id :: seen)).2 _ hmem) (List.mem_cons_self _ _)
        · exact (ih (r.tmdb_id :: seen)).1
      · intro x hx
        rw [List.map_cons, List.mem_cons] at hx
        rcases hx with hx1 | hx2
        · subst hx1; exact h
        · intro hxs
          exact ((ih (r.tmdb_id :: seen)).2 x hx2) (List.mem_cons_of_mem _ hxs)

/-- C1 (amended). The TMDB discovery sensor deduplicates by catalog
identifier (first occurrence wins) before truncating, so its published
data never exceeds max_items and never repeats an identifier. The Seer
discovery pipeline, the discover mode included, applies no deduplication
at all: it only truncates, and its published list respects the cap
whenever the cap is at least 1 (the fallback card occupies one slot
otherwise). -/
theorem c1_dedup_truncation_theorem (results : List TmdbRecord) (max_items : Nat)
    (c : SeerCycle) :
    ((tmdbFinalize results max_items).data.map (fun r => r.tmdb_id)).Nodup
    ∧ (tmdbFinalize results max_items).data.length ≤ max_items
    ∧ (tmdbFinalize results max_items).data = (tmdbFiltered results).take max_items
    ∧ (1 ≤ c.max_items → (seerDiscoverOk c).data.length ≤ c.max_items) := by
  refine ⟨?_, ?_, rfl, ?_⟩
  · have hu : ((tmdbUnique results).map (fun r => r.tmdb_id)).Nodup :=
      (dedupByIdAux_spec results []).1
    have hsub : List.Sublist (tmdbFinalize results max_items).data (tmdbUnique results) :=
      ((List.take_sublist _ _).trans (List.filter_sublist _))
    exact hu.sublist (hsub.map _)
  · exact List.length_take_le _ _
  · intro h1
    simp only [seerDiscoverOk]
    split
    · simpa using h1
    · rw [List.length_map]
      exact List.length_take_le _ _

/-- C1 concrete duplicate item: catalog identifier 5 appears twice in one
discover page. -/
def c1item : SeerItem :=
  { id := some 5
  , title := some "Dup"
  , name := none
  , first_air_date := none
  , release_date := some "2021-03-04"
  , original_language := some "en"
  , genre_ids := [] }

/-- C1 concrete cycle: both copies pass every filter and both enrich. -/
def c1cycle : SeerCycle :=
  { requested := []
  , details := fun _ _ => some { title := "Dup", overview := "ov", year := "2021" }
  , images := fun _ _ => (none, none, none)
  , filters := seerDefaultFilters
  , movieData := some [c1item, c1item]
  , tvData := none
  , max_items := 20 }

/-- C1 counterexample: the Seer discover cycle publishes two records with
the same catalog identifier, so the claimed deduplication invariant fails
on this pipeline. -/
theorem c1_dedup_truncation_counterexample :
    ((seerDiscoverOk c1cycle).data.map seerDatumId) = [some "5", some "5"]
    ∧ ¬ ((seerDiscoverOk c1cycle).data.map seerDatumId).Nodup := by
  have h : ((seerDiscoverOk c1cycle).data.map seerDatumId) = [some "5", some "5"] := by decide
  exact ⟨h, by rw [h]; decide⟩

/-- C1 witness: the amended statement at a concrete input with a positive
cap. -/
theorem c1_dedup_truncation_witness :
    ((tmdbFinalize [] 3).data.map (fun r => r.tmdb_id)).Nodup
    ∧ (tmdbFinalize [] 3).data.length ≤ 3
    ∧ (tmdbFinalize [] 3).data = (tmdbFiltered []).take 3
    ∧ (1 ≤ c1cycle.max_items → (seerDiscoverOk c1cycle).data.length ≤ c1cycle.max_items) :=
  c1_dedup_truncation_theorem [] 3 c1cycle

/-- C2 (amended). A cycle whose enrichment produced no successful record
publishes exactly the one fixed fallback card; the Plex sensor then
reports state 0, but the Seer discovery sensor reports state 1, because
it publishes the length of the data list after appending the card. -/
theorem c2_placeholder_theorem (c : SeerCycle) (ra : List PlexRecord) (pmax : Nat)
    (hm : processMediaItems c.requested c.details c.images c.filters MediaType.movie c.movieData
      = [])
    (ht : processMediaItems c.requested c.details c.images c.filters MediaType.tv c.tvData = [])
    (hra : ra = []) :
    (seerDiscoverOk c).data = [SeerDatum.fallback seerFallback]
    ∧ (seerDiscoverOk c).state = 1
    ∧ (plexFinalize ra pmax).data = [PlexDatum.fallback plexFallback]
    ∧ (plexFinalize ra pmax).state = 0 := by
  subst hra
  refine ⟨?_, ?_, ?_, ?_⟩
  · simp [seerDiscoverOk, hm, ht]
  · simp [seerDiscoverOk, hm, ht]
  · simp [plexFinalize, sortDescBy]
  · simp [plexFinalize]

/-- C2 concrete empty cycle: no upstream data at all. -/
def c2cycle : SeerCycle :=
  { requested := []
  , details := fun _ _ => none
  , images := fun _ _ => (none, none, none)
  , filters := seerDefaultFilters
  , movieData := none
  , tvData := none
  , max_items := 10 }

/-- C2 counterexample: on the empty cycle the Seer sensor publishes the
fallback card but reports state 1, not the claimed 0. -/
theorem c2_placeholder_counterexample :
    (seerDiscoverOk c2cycle).data = [SeerDatum.fallback seerFallback]
    ∧ (seerDiscoverOk c2cycle).state = 1
    ∧ (seerDiscoverOk c2cycle).state ≠ 0 := by
  refine ⟨by decide, by decide, by decide⟩

/-- C2 witness: the amended statement at the concrete empty cycle. -/
theorem c2_placeholder_witness :
    (seerDiscoverOk c2cycle).data = [SeerDatum.fallback seerFallback]
    ∧ (seerDiscoverOk c2cycle).state = 1
    ∧ (plexFinalize [] 10).data = [PlexDatum.fallback plexFallback]
    ∧ (plexFinalize [] 10).state = 0 :=
  c2_placeholder_theorem c2cycle [] 10 rfl rfl rfl

/-- C7 (confirmed). Whatever the previous published state was, an
uncaught exception in the update cycle of any of the three sensors resets
the state count to 0, the data list to empty (never stale data) and the
availability flag to false. -/
theorem c7_reset_theorem (e : String) (ps : SensorState SeerDatum)
    (pt : SensorState TmdbRecord) (pp : SensorState PlexDatum) :
    seerAsyncUpdate ps (Except.error e) = { state := 0, data := [], available := false }
    ∧ tmdbAsyncUpdate pt (Except.error e) = { state := 0, data := [], available := false }
    ∧ plexAsyncUpdate pp (Except.error e) = { state := 0, data := [], available := false } :=
  ⟨rfl, rfl, rfl⟩

/-- C9 (confirmed). No record published by the TMDB discovery sensor
carries catalog identifier 137228: the final stage removes it after
deduplication and before truncation, whatever the configured filters let
through. -/
theorem c9_excluded_id_theorem (results : List TmdbRecord) (max_items : Nat) (r : TmdbRecord)
    (h : r ∈ (tmdbFinalize results max_items).data) : r.tmdb_id ≠ some 137228 := by
  have hd : (tmdbFinalize results max_items).data = (tmdbFiltered results).take max_items := rfl
  rw [hd] at h
  have h1 : r ∈ tmdbFiltered results := (List.take_sublist _ _).subset h
  intro heq
  have h2 := (List.mem_filter.mp h1).2
  rw [heq] at h2
  simp at h2

/-- C9 concrete record with an ordinary identifier. -/
def c9rec : TmdbRecord :=
  { title := some "A"
  , type := "movie"
  , year := "2021"
  , overview := ""
  , poster := none
  , backdrop := none
  , tmdb_id := some 603 }

/-- C9 witness: a concrete published record, shown in the published data
and therefore not the excluded identifier. -/
theorem c9_excluded_id_witness : c9rec.tmdb_id ≠ some 137228 :=
  c9_excluded_id_theorem [c9rec] 5 c9rec (by decide)

/-- C10 (confirmed). When more results survive than the cap (and the cap
is at least one in the Plex case, whose empty-page path would otherwise
publish the fallback card), both the TMDB discovery sensor and the Plex
sensor report the full pre-truncation count as the state, strictly more
than the records actually published. -/
theorem c10_state_exceeds_theorem (results : List TmdbRecord) (tmax : Nat)
    (ra : List PlexRecord) (pmax : Nat)
    (h1 : tmax < (tmdbFiltered results).length) (h2 : 1 ≤ pmax) (h3 : pmax < ra.length) :
    (tmdbFinalize results tmax).state = (tmdbFiltered results).length
    ∧ (tmdbFinalize results tmax).data.length = tmax
    ∧ (tmdbFinalize results tmax).data.length < (tmdbFinalize results tmax).state
    ∧ (plexFinalize ra pmax).state = ra.length
    ∧ (plexFinalize ra pmax).data.length = pmax
    ∧ (plexFinalize ra pmax).data.length < (plexFinalize ra pmax).state := by
  have hdt : (tmdbFinalize results tmax).data.length = tmax := by
    show ((tmdbFiltered results).take tmax).length = tmax
    rw [List.length_take]
    exact Nat.min_eq_left (le_of_lt h1)
  have hsort : (sortDescBy (fun r => r.added_at) ra).length = ra.length :=
    sortDescBy_length _ _
  have hcard : ((sortDescBy (fun r => r.added_at) ra).take pmax).length = pmax := by
    rw [List.length_take, hsort]
    omega
  have hne : ((sortDescBy (fun r => r.added_at) ra).take pmax).isEmpty = false := by
    cases hc : (sortDescBy (fun r => r.added_at) ra).take pmax with
    | nil =>
      rw [hc] at hcard
      simp at hcard
      omega
    | cons a l => rfl
  have hpd : (plexFinalize ra pmax).data.length = pmax := by
    simp only [plexFinalize, hne, Bool.false_eq_true, if_false, List.length_map]
    exact hcard
  refine ⟨rfl, hdt, ?_, rfl, hpd, ?_⟩
  · rw [hdt]
    exact h1
  · rw [hpd]
    exact h3

/-- C10 concrete TMDB results: two distinct surviving identifiers. -/
def c10results : List TmdbRecord :=
  [ { title := some "A", type := "movie", year := "2020", overview := ""
    , poster := none, backdrop := none, tmdb_id := some 1 }
  , { title := some "B", type := "movie", year := "2021", overview := ""
    , poster := none, backdrop := none, tmdb_id := some 2 } ]

/-- C10 concrete Plex items: two processed records. -/
def c10ra : List PlexRecord :=
  [ { title := "a", added_at := 11 }, { title := "b", added_at := 22 } ]

/-- C10 witness: the state-versus-published gap at a cap of one against
two surviving results on both sensors. -/
theorem c10_state_exceeds_witness :
    (tmdbFinalize c10results 1).state = (tmdbFiltered c10results).length
    ∧ (tmdbFinalize c10results 1).data.length = 1
    ∧ (tmdbFinalize c10results 1).data.length < (tmdbFinalize c10results 1).state
    ∧ (plexFinalize c10ra 1).state = c10ra.length
    ∧ (plexFinalize c10ra 1).data.length = 1
    ∧ (plexFinalize c10ra 1).data.length < (plexFinalize c10ra 1).state :=
  c10_state_exceeds_theorem c10results 1 c10ra 1 (by decide) (by decide) (by decide)

/-! The memoization cache of the TMDB base sensor (common/tmdb_sensor.py
_search_tmdb lines 223-252 and _get_tmdb_details lines 254-280). The one
Python dict self._cache is split by its disjoint key prefixes into one
typed association list per kind of entry; assignment prepends and lookup
takes the most recent binding, matching dict update then indexing. Each
stateful call returns the value, the cache after the call and how many
upstream fetches the call issued (0 or 1). -/

/-- Lookup in an association-list cache. -/
def cacheLookup {α : Type} : List (String × α) → String → Option α
  | [], _ => none
  | (k, v) :: rest, key => if k = key then some v else cacheLookup rest key

/-- Unfolding equation of the cache lookup on a cons cell. -/
theorem cacheLookup_cons {α : Type} (k : String) (v : α) (rest : List (String × α))
    (key : String) :
    cacheLookup ((k, v) :: rest) key = if k = key then some v else cacheLookup rest key := rfl

/-- The f-string cache key of _search_tmdb: search, media type, title,
year (str of the Python value, None included) and language. -/
def searchCacheKey (mt : MediaType) (title : String) (year : Option Int) (lang : String) :
    String :=
  "search_" ++ mtStr mt ++ "_" ++ title ++ "_" ++ pyStrOfOptInt year ++ "_" ++ lang

/-- TMDBMediaSensor._search_tmdb with its cache: a falsy title returns
None with no fetch; a cache hit returns the cached identifier with no
fetch; otherwise one upstream fetch, whose first result is cached and
returned when the results array is truthy, while a failed or empty fetch
returns None and caches NOTHING. -/
def searchTmdbS (upstream : String → Option Int → MediaType → String → Option (List Int))
    (cache : List (String × Int)) (title : String) (year : Option Int) (mt : MediaType)
    (lang : String) : Option Int × List (String × Int) × Nat :=
  if title = "" then (none, cache, 0)
  else
    match cacheLookup cache (searchCacheKey mt title year lang) with
    | some v => (some v, cache, 0)
    | none =>
      match upstream title year mt lang with
      | some (r :: _) => (some r, (searchCacheKey mt title year lang, r) :: cache, 1)
      | _ => (none, cache, 1)

/-- The parsed details body: each field read with dict.get. -/
structure DetailsBody where
  title : Option String
  name : Option String
  overview : Option String
  release_date : Option String
  first_air_date : Option String
deriving DecidableEq

/-- The details record built from a fetched body (the dict literal of
_get_tmdb_details): title or name by media kind with default Unknown,
overview with its default, and the first four characters of the matching
date with default empty. -/
def detailsOfBody (mt : MediaType) (b : DetailsBody) : Details :=
  { title := (match mt with | .movie => b.title | .tv => b.name).getD "Unknown"
  , overview := b.overview.getD "No description available."
  , year := ((match mt with | .movie => b.release_date | .tv => b.first_air_date).getD "").take 4 }

/-- The f-string cache key of _get_tmdb_details: details, media type,
identifier and language. -/
def detailsCacheKey (mt : MediaType) (tmdb_id : String) (lang : String) : String :=
  "details_" ++ mtStr mt ++ "_" ++ tmdb_id ++ "_" ++ lang

/-- TMDBMediaSensor._get_tmdb_details with its cache: falsy id returns
None with no fetch; a cache hit returns the cached record with no fetch;
otherwise one upstream fetch, cached and returned on success, while a
failed fetch returns None and caches NOTHING. -/
def getTmdbDetailsS (upstream : String → MediaType → String → Option DetailsBody)
    (cache : List (String × Details)) (tmdb_id : String) (mt : MediaType) (lang : String) :
    Option Details × List (String × Details) × Nat :=
  if tmdb_id = "" then (none, cache, 0)
  else
    match cacheLookup cache (detailsCacheKey mt tmdb_id lang) with
    | some v => (some v, cache, 0)
    | none =>
      match upstream tmdb_id mt lang with
      | some b => (some (detailsOfBody mt b), (detailsCacheKey mt tmdb_id lang, detailsOfBody mt b) :: cache, 1)
      | none => (none, cache, 1)

/-- C8 (amended). When a search resolves successfully, repeating it on
the resulting cache returns the same identifier with zero upstream
fetches and an unchanged cache, and likewise for a successful details
fetch; idempotence with a single underlying call therefore holds for
keys whose first resolution succeeded. Failed resolutions are not
cached, so an unsuccessful key fetches upstream again on every retry
(see the counterexample). -/
theorem c8_memoization_theorem
    (upstream : String → Option Int → MediaType → String → Option (List Int))
    (dupstream : String → MediaType → String → Option DetailsBody)
    (cache : List (String × Int)) (dcache : List (String × Details))
    (title tmdb_id : String) (year : Option Int) (mt : MediaType) (lang : String)
    (i : Int) (d : Details)
    (hs : (searchTmdbS upstream cache title year mt lang).1 = some i)
    (hd : (getTmdbDetailsS dupstream dcache tmdb_id mt lang).1 = some d) :
    searchTmdbS upstream (searchTmdbS upstream cache title year mt lang).2.1 title year mt lang
      = (some i, (searchTmdbS upstream cache title year mt lang).2.1, 0)
    ∧ getTmdbDetailsS dupstream (getTmdbDetailsS dupstream dcache tmdb_id mt lang).2.1
        tmdb_id mt lang
      = (some d, (getTmdbDetailsS dupstream dcache tmdb_id mt lang).2.1, 0) := by
  constructor
  · by_cases htitle : title = ""
    · rw [searchTmdbS, if_pos htitle] at hs
      simp at hs
    · rw [searchTmdbS, if_neg htitle] at hs
      cases hc : cacheLookup cache (searchCacheKey mt title year lang) with
      | some v =>
        have hval : searchTmdbS upstream cache title year mt lang = (some v, cache, 0) := by
          rw [searchTmdbS, if_neg htitle, hc]
        rw [hc] at hs
        have hvi : v = i := by simpa using hs
        subst hvi
        rw [hval]
        exact hval
      | none =>
        rw [hc] at hs
        cases hu : upstream title year mt lang with
        | none =>
          rw [hu] at hs
          simp at hs
        | some res =>
          cases res with
          | nil =>
            rw [hu] at hs
            simp at hs
          | cons r rest =>
            rw [hu] at hs
            have hri : r = i := by simpa using hs
            subst hri
            have hval : searchTmdbS upstream cache title year mt lang
                = (some r, (searchCacheKey mt title year lang, r) :: cache, 1) := by
              rw [searchTmdbS, if_neg htitle, hc, hu]
            rw [hval]
            show searchTmdbS upstream ((searchCacheKey mt title year lang, r) :: cache)
                title year mt lang
              = (some r, (searchCacheKey mt title year lang, r) :: cache, 0)
            rw [searchTmdbS, if_neg htitle]
            have hl : cacheLookup ((searchCacheKey mt title year lang, r) :: cache)
                (searchCacheKey mt title year lang) = some r := by
              rw [cacheLookup_cons, if_pos rfl]
            rw [hl]
  · by_cases hid : tmdb_id = ""
    · rw [getTmdbDetailsS, if_pos hid] at hd
      simp at hd
    · rw [getTmdbDetailsS, if_neg hid] at hd
      cases hc : cacheLookup dcache (detailsCacheKey mt tmdb_id lang) with
      | some v =>
        have hval : getTmdbDetailsS dupstream dcache tmdb_id mt lang = (some v, dcache, 0) := by
          rw [getTmdbDetailsS, if_neg hid, hc]
        rw [hc] at hd
        have hvd : v = d := by simpa using hd
        subst hvd
        rw [hval]
        exact hval
      | none =>
        rw [hc] at hd
        cases hu : dupstream tmdb_id mt lang with
        | none =>
          rw [hu] at hd
          simp at hd
        | some b =>
          rw [hu] at hd
          have hbd : detailsOfBody mt b = d := by simpa using hd
          have hval : getTmdbDetailsS dupstream dcache tmdb_id mt lang
              = (some (detailsOfBody mt b),
                 (detailsCacheKey mt tmdb_id lang, detailsOfBody mt b) :: dcache, 1) := by
            rw [getTmdbDetailsS, if_neg hid, hc, hu]
          rw [hval]
          show getTmdbDetailsS dupstream
              ((detailsCacheKey mt tmdb_id lang, detailsOfBody mt b) :: dcache) tmdb_id mt lang
            = (some d, (detailsCacheKey mt tmdb_id lang, detailsOfBody mt b) :: dcache, 0)
          rw [getTmdbDetailsS, if_neg hid]
          have hl : cacheLookup ((detailsCacheKey mt tmdb_id lang, detailsOfBody mt b) :: dcache)
              (detailsCacheKey mt tmdb_id lang) = some (detailsOfBody mt b) := by
            rw [cacheLookup_cons, if_pos rfl]
          rw [hl, hbd]

/-- C8 counterexample upstream: every search call yields no results. -/
def c8failUpstream : String → Option Int → MediaType → String → Option (List Int) :=
  fun _ _ _ _ => none

/-- C8 counterexample: a search whose first resolution failed issues an
upstream fetch again on the identical second resolution (1 fetch each
time), so the same cache-key tuple triggers more than one upstream fetch
per process lifetime, against the claim. -/
theorem c8_memoization_counterexample :
    (searchTmdbS c8failUpstream [] "Foo" none MediaType.movie "en").2.2 = 1
    ∧ (searchTmdbS c8failUpstream
        (searchTmdbS c8failUpstream [] "Foo" none MediaType.movie "en").2.1
        "Foo" none MediaType.movie "en").2.2 = 1 := by
  refine ⟨by decide, by decide⟩

/-- C8 witness upstream: one identifier for every search. -/
def c8okUpstream : String → Option Int → MediaType → String → Option (List Int) :=
  fun _ _ _ _ => some [7]

/-- C8 witness details upstream: one fixed body for every fetch. -/
def c8okDetails : String → MediaType → String → Option DetailsBody :=
  fun _ _ _ =>
    some { title := some "T"
         , name := none
         , overview := some "o"
         , release_date := some "2020-01-01"
         , first_air_date := none }

/-- C8 witness: a successful first search and details fetch, repeated
from the cache with zero further upstream fetches. -/
theorem c8_memoization_witness :
    searchTmdbS c8okUpstream
        (searchTmdbS c8okUpstream [] "Foo" none MediaType.movie "en").2.1
        "Foo" none MediaType.movie "en"
      = (some 7, (searchTmdbS c8okUpstream [] "Foo" none MediaType.movie "en").2.1, 0)
    ∧ getTmdbDetailsS c8okDetails
        (getTmdbDetailsS c8okDetails [] "42" MediaType.movie "en").2.1
        "42" MediaType.movie "en"
      = (some { title := "T", overview := "o", year := "2020" },
         (getTmdbDetailsS c8okDetails [] "42" MediaType.movie "en").2.1, 0) :=
  c8_memoization_theorem c8okUpstream c8okDetails [] [] "Foo" "42" none MediaType.movie "en"
    7 { title := "T", overview := "o", year := "2020" } (by decide) (by decide)

end Mediarr
